import Mathlib

/-!
Verification development for the ResonanceAI fusion/classification core.

The definitions below are a shallow embedding of the Python source:
* `src/src/heatmap.py` (grid fetch, point normalization, quadrant segmentation),
* `src/resonance_agent/political_agent/subtools.py` (candidate/base/tag grids),
* `src/resonance_agent/political_agent/tools.py` (composite analysis builder and
  the declarative location filter).

Modelling conventions:
* Python floats are modelled as rationals; a pandas NaN value is `Option.none`.
  Comparisons against NaN are false, exactly as in numpy, which the helpers
  `nanGe`, `nanGt`, `nanLt` encode.
* Network effects are modelled by passing the responses of the external
  provider (search results, grid responses, fetched frames) as explicit
  parameters; the list of network calls a run performs is returned as data.
* DataFrames are lists of rows; pandas merge on exact keys is the
  corresponding left-driven product; vectorized column assignments become
  per-row functions evaluated over the whole table where needed.
-/

namespace ResonanceAI

/-- NaN-aware comparison used by the pandas masks: `x >= t` is false when `x`
is NaN (`none`). -/
def nanGe (x : Option ℚ) (t : ℚ) : Bool :=
  match x with
  | some v => t ≤ v
  | none => false

/-- NaN-aware strict comparison `x > t`; false when `x` is NaN. -/
def nanGt (x : Option ℚ) (t : ℚ) : Bool :=
  match x with
  | some v => t < v
  | none => false

/-- NaN-aware strict comparison `x < t`; false when `x` is NaN. -/
def nanLt (x : Option ℚ) (t : ℚ) : Bool :=
  match x with
  | some v => v < t
  | none => false

/-- The `query` part of one raw heatmap point as returned by the provider.
`none` models a field that is absent from the JSON object, in which case
`query_data.get(field, 0)` in `get_complete_heatmap_analysis` substitutes 0. -/
structure RawQuery where
  affinity : Option ℚ
  popularity : Option ℚ
  affinity_rank : Option ℚ
deriving DecidableEq

/-- One raw heatmap point from the provider response. -/
structure RawPoint where
  latitude : ℚ
  longitude : ℚ
  geohash : String
  query : RawQuery
deriving DecidableEq

/-- One entry of the `data_points` list built in `get_complete_heatmap_analysis`
(lines 243-251 of heatmap.py).  `affinity` and `popularity` are kept as
`Option ℚ` because the subsequent `pd.to_numeric(..., errors=coerce)` step can
leave NaN in those columns; the values produced by `processPoint` itself are
always numeric since absent fields default to 0. -/
structure DataPoint where
  latitude : ℚ
  longitude : ℚ
  geohash : String
  affinity : Option ℚ
  popularity : Option ℚ
  affinity_rank : ℚ
  hotspot_score : ℚ
deriving DecidableEq

/-- Normalization of one raw point, following heatmap.py lines 243-251:
absent affinity/popularity default to 0 and
`hotspot_score = affinity * 0.6 + popularity * 0.4` is computed from those
defaulted values. -/
def processPoint (p : RawPoint) : DataPoint :=
  { latitude := p.latitude
    longitude := p.longitude
    geohash := p.geohash
    affinity := some (p.query.affinity.getD 0)
    popularity := some (p.query.popularity.getD 0)
    affinity_rank := p.query.affinity_rank.getD 0
    hotspot_score := p.query.affinity.getD 0 * (3/5) + p.query.popularity.getD 0 * (2/5) }

/-- The whole `data_points` list: one row per provider point, none dropped. -/
def processPoints (ps : List RawPoint) : List DataPoint :=
  ps.map processPoint

/-- The `np.select` segmentation cascade of heatmap.py lines 266-273, evaluated
top to bottom with first match winning and default `Unknown`.  NaN values make
every condition false. -/
def segmentOf (a p : Option ℚ) : String :=
  if nanGe a (3/5) && nanGe p (3/5) then "HA-HP"
  else if nanGe a (3/5) && nanLt p (3/5) then "HA-LP"
  else if nanLt a (3/5) && nanGe p (3/5) then "LA-HP"
  else if nanLt a (3/5) && nanLt p (3/5) then "LA-LP"
  else "Unknown"

/-- The `strategy_map` dict of heatmap.py lines 275-280; `Series.map` sends a
key that is not in the dict to NaN, modelled as `none`. -/
def strategyMap (s : String) : Option String :=
  if s = "HA-HP" then some "Rally the Base"
  else if s = "HA-LP" then some "Hidden Goldmine"
  else if s = "LA-HP" then some "Bring Them Over"
  else if s = "LA-LP" then some "Deep Conversion"
  else none

/-- One row of the DataFrame returned by `get_complete_heatmap_analysis` on its
success path: the data point plus the derived `segment` and `strategy`
columns. -/
structure GridRow extends DataPoint where
  segment : String
  strategy : Option String
deriving DecidableEq

/-- Adds the `segment` and `strategy` columns to a data point. -/
def addSegment (d : DataPoint) : GridRow :=
  { d with
    segment := segmentOf d.affinity d.popularity
    strategy := strategyMap (segmentOf d.affinity d.popularity) }

/-- One match returned by `client.search_entities`. -/
structure EntityInfo where
  id : String
  name : String
deriving DecidableEq

/-- Outcome of a `client.search_entities` call: either the call raises, or it
returns a response with a success flag and a list of matches. -/
inductive SearchOutcome where
  | raised (msg : String)
  | resp (success : Bool) (entities : List EntityInfo)
deriving DecidableEq

/-- One match returned by `client.search_tags`; the id can be missing. -/
structure TagInfo where
  id : Option String
  name : String
deriving DecidableEq

/-- Outcome of a `client.search_tags` call. -/
inductive TagSearchOutcome where
  | raised (msg : String)
  | resp (success : Bool) (tags : List TagInfo)
deriving DecidableEq

/-- Outcome of the `client.get_heatmap_analysis` call. -/
inductive GridOutcome where
  | raised (msg : String)
  | resp (success : Bool) (points : List RawPoint) (error : String)
deriving DecidableEq

/-- A network call issued by `get_complete_heatmap_analysis`.  The grid-fetch
event records the `entity_ids` and `tag_ids` arguments (`none` models Python
None, chosen at lines 193-194 of heatmap.py when the resolved list is empty)
and whether a signals object was built. -/
inductive CallEvent where
  | searchEntities (query : String)
  | searchTags (query : String)
  | gridFetch (entity_ids : Option (List String)) (tag_ids : Option (List String))
      (signals : Bool)
deriving DecidableEq

/-- Accumulated state of the resolution loops: collected ids, per-name success
flags (the `success` fields written into `result.resolution`), and the
`result.errors` entries appended so far. -/
structure Resolution where
  ids : List String
  res : List (String × Bool)
  errors : List String
deriving DecidableEq

/-- One iteration of the entity resolution loop (heatmap.py lines 94-130).
A failed or raising search records `success=false` for the name together with
an error string, and the loop continues. -/
def resolveEntityStep (oracle : String → SearchOutcome) (acc : Resolution)
    (name : String) : Resolution :=
  match oracle name with
  | .resp true (e :: _) =>
      { acc with ids := acc.ids ++ [e.id], res := acc.res ++ [(name, true)] }
  | .resp true [] =>
      { acc with
        res := acc.res ++ [(name, false)],
        errors := acc.errors ++ ["Could not resolve entity: " ++ name] }
  | .resp false _ =>
      { acc with
        res := acc.res ++ [(name, false)],
        errors := acc.errors ++ ["Could not resolve entity: " ++ name] }
  | .raised m =>
      { acc with
        res := acc.res ++ [(name, false)],
        errors := acc.errors ++ ["Error resolving entity " ++ name ++ ": " ++ m] }

/-- The entity resolution loop over all requested names. -/
def resolveEntities (oracle : String → SearchOutcome) (names : List String) :
    Resolution :=
  names.foldl (resolveEntityStep oracle) ⟨[], [], []⟩

/-- One iteration of the tag resolution loop (heatmap.py lines 135-188): all
returned tag ids for one name are retained; when the search succeeds but no
returned tag carries an id, a failure is recorded. -/
def resolveTagStep (oracle : String → TagSearchOutcome) (acc : Resolution)
    (name : String) : Resolution :=
  match oracle name with
  | .resp true (t :: ts) =>
      let valid := ((t :: ts).map TagInfo.id).reduceOption
      if valid.isEmpty then
        { acc with
          res := acc.res ++ [(name, false)],
          errors := acc.errors ++ ["Tag found but no valid ID: " ++ name] }
      else
        { acc with ids := acc.ids ++ valid, res := acc.res ++ [(name, true)] }
  | .resp true [] =>
      { acc with
        res := acc.res ++ [(name, false)],
        errors := acc.errors ++ ["Could not resolve tag: " ++ name] }
  | .resp false _ =>
      { acc with
        res := acc.res ++ [(name, false)],
        errors := acc.errors ++ ["Could not resolve tag: " ++ name] }
  | .raised m =>
      { acc with
        res := acc.res ++ [(name, false)],
        errors := acc.errors ++ ["Error resolving tag " ++ name ++ ": " ++ m] }

/-- The tag resolution loop over all requested names. -/
def resolveTags (oracle : String → TagSearchOutcome) (names : List String) :
    Resolution :=
  names.foldl (resolveTagStep oracle) ⟨[], [], []⟩

/-- What `get_complete_heatmap_analysis` hands back to its caller.
The function body builds a `result` dict and a DataFrame `df`, but the final
statement (heatmap.py line 295) is `return df`, placed after the surrounding
try/except:
* when the grid call raises, the code returns the `result` dict early
  (lines 228-232) - `dictResult`;
* when the grid call reports success, the DataFrame is returned - `frame`
  (a response with zero points leaves `df` as the empty frame: the column
  coercion raises KeyError, the outer handler swallows it, and the empty
  frame is returned);
* when the grid call reports `success=false`, no early return happens and
  `df` was never assigned, so `return df` raises UnboundLocalError to the
  caller - `raisedUnbound`. -/
inductive HeatmapReturn where
  | dictResult (success : Bool) (message : String)
  | frame (rows : List GridRow)
  | raisedUnbound
deriving DecidableEq

/-- Observable behaviour of one `get_complete_heatmap_analysis` run: the value
handed back, the network calls issued, the per-name resolution success flags,
and the accumulated `result.errors` strings. -/
structure HeatmapOutput where
  ret : HeatmapReturn
  calls : List CallEvent
  entityRes : List (String × Bool)
  tagRes : List (String × Bool)
  errors : List String
deriving DecidableEq

/-- Shallow embedding of `get_complete_heatmap_analysis` (heatmap.py lines
27-295).  The three oracles stand for the provider client; every invocation
resolves the names, then issues the grid-fetch call unconditionally (there is
no short-circuit on failed resolution: lines 214-224 run in every case). -/
def get_complete_heatmap_analysis (searchE : String → SearchOutcome)
    (searchT : String → TagSearchOutcome)
    (grid : Option (List String) → Option (List String) → GridOutcome)
    (entity_names tag_names : List String) (audience_ids : List String)
    (age gender : Option String) : HeatmapOutput :=
  let er := resolveEntities searchE entity_names
  let tr := resolveTags searchT tag_names
  let entityIds : Option (List String) := if er.ids.isEmpty then none else some er.ids
  let tagIds : Option (List String) := if tr.ids.isEmpty then none else some tr.ids
  let signalsBuilt : Bool := age.isSome || gender.isSome || !audience_ids.isEmpty
  let calls := entity_names.map CallEvent.searchEntities
      ++ tag_names.map CallEvent.searchTags
      ++ [CallEvent.gridFetch entityIds tagIds signalsBuilt]
  match grid entityIds tagIds with
  | .raised m =>
      { ret := .dictResult false ("Heatmap API failed: " ++ m)
        calls := calls
        entityRes := er.res
        tagRes := tr.res
        errors := er.errors ++ tr.errors ++ ["Heatmap API timeout/error: " ++ m] }
  | .resp true pts _ =>
      let dps := processPoints pts
      if dps.isEmpty then
        { ret := .frame []
          calls := calls
          entityRes := er.res
          tagRes := tr.res
          errors := er.errors ++ tr.errors ++ ["Function error: affinity"] }
      else
        { ret := .frame (dps.map addSegment)
          calls := calls
          entityRes := er.res
          tagRes := tr.res
          errors := er.errors ++ tr.errors }
  | .resp false _ err =>
      { ret := .raisedUnbound
        calls := calls
        entityRes := er.res
        tagRes := tr.res
        errors := er.errors ++ tr.errors ++ ["Heatmap API call failed: " ++ err] }

/-- A candidate-grid row surviving
`dropna(subset=[popularity, latitude, longitude])` in `get_candidate_base`
(subtools.py line 78): the popularity value is known to be numeric, while the
affinity column is kept as is - it is not part of the dropna subset, so it can
still be NaN. -/
structure CandRow where
  latitude : ℚ
  longitude : ℚ
  geohash : String
  affinity : Option ℚ
  popularity : ℚ
  affinity_rank : ℚ
  hotspot_score : ℚ
  segment : String
  strategy : Option String
deriving DecidableEq

/-- The dropna step on the candidate frame: rows with NaN popularity are
dropped (latitude and longitude are always present in the model), all other
columns are kept. -/
def dropnaCandidate (g : List GridRow) : List CandRow :=
  g.filterMap fun r =>
    r.popularity.map fun p =>
      ⟨r.latitude, r.longitude, r.geohash, r.affinity, p, r.affinity_rank,
        r.hotspot_score, r.segment, r.strategy⟩

/-- An opponent-frame row after the rename to `opponent_popularity`, the column
selection `[latitude, longitude, opponent_popularity]` and the full `dropna()`
of subtools.py lines 97-98. -/
structure OppRow where
  latitude : ℚ
  longitude : ℚ
  opponent_popularity : ℚ
deriving DecidableEq

/-- Builds the opponent frame: select the three columns and drop NaN rows. -/
def opponentSelect (g : List GridRow) : List OppRow :=
  g.filterMap fun r =>
    r.popularity.map fun p => ⟨r.latitude, r.longitude, p⟩

/-- The `np.select` status cascade of subtools.py lines 118-127 applied to the
`net_popularity` column: strictly above 2.0 is leading, strictly below -2.0 is
trailing, anything else (both boundaries included) is the default. -/
def popularityStatusOf (net : ℚ) : String :=
  if net > 2 then "Leading Opponent"
  else if net < -2 then "Trailing Opponent"
  else "Similar to Opponent"

/-- One row of the merged candidate-versus-opponent frame, with the derived
`net_popularity` and `popularity_status` columns. -/
structure MergedRow extends CandRow where
  opponent_popularity : ℚ
  net_popularity : ℚ
  popularity_status : String
deriving DecidableEq

/-- The inner merge on `(latitude, longitude)` of subtools.py line 104 plus the
derived columns of lines 111-127.  pandas inner-merge semantics: each left row
is paired with every right row carrying bit-identical keys. -/
def mergeCandOpp (cand : List CandRow) (opp : List OppRow) : List MergedRow :=
  cand.flatMap fun c =>
    (opp.filter fun o => o.latitude == c.latitude && o.longitude == c.longitude).map
      fun o =>
        { toCandRow := c
          opponent_popularity := o.opponent_popularity
          net_popularity := (c.popularity - o.opponent_popularity) * 100
          popularity_status :=
            popularityStatusOf ((c.popularity - o.opponent_popularity) * 100) }

/-- Shallow embedding of `get_candidate_base` (subtools.py lines 38-137), given
the two frames returned by `get_complete_heatmap_analysis` for the candidate
and the opponent.  Every early-exit branch of the source returns the empty
frame, modelled as the empty list. -/
def get_candidate_base (candGrid oppGrid : List GridRow) : List MergedRow :=
  if candGrid.isEmpty then []
  else
    let cand := dropnaCandidate candGrid
    if cand.isEmpty then []
    else if oppGrid.isEmpty then []
    else
      let opp := opponentSelect oppGrid
      if opp.isEmpty then []
      else mergeCandOpp cand opp

/-- One row of the political-base frame after the rename to `base_popularity`
and the selection `[latitude, longitude, base_popularity]` (subtools.py lines
186-187). -/
structure BaseRow where
  latitude : ℚ
  longitude : ℚ
  base_popularity : ℚ
deriving DecidableEq

/-- The audience id chosen from the textual base name (subtools.py lines
161-166); anything other than progressive or conservative defaults to
center. -/
def baseAudience (candidate_base : String) : List String :=
  if candidate_base.toLower = "progressive" then
    ["urn:audience:political_preferences:politically_progressive"]
  else if candidate_base.toLower = "conservative" then
    ["urn:audience:political_preferences:politically_conservative"]
  else
    ["urn:audience:political_preferences:center"]

/-- Shallow embedding of `get_political_base` (subtools.py lines 140-196),
given the frame fetched for the base audience: drop NaN popularity rows, then
rename and select the three columns. -/
def get_political_base (baseGrid : List GridRow) : List BaseRow :=
  if baseGrid.isEmpty then []
  else
    baseGrid.filterMap fun r =>
      r.popularity.map fun p => ⟨r.latitude, r.longitude, p⟩

/-- One row of a tag frame built by `get_targeted_base`: the key, the tag
column label and the renamed `tag_popularity` value (subtools.py lines
249-251). -/
structure TagRow where
  latitude : ℚ
  longitude : ℚ
  tag_name : String
  tag_popularity : ℚ
deriving DecidableEq

/-- Shallow embedding of `get_targeted_base` (subtools.py lines 199-260), given
the frame fetched for the tag: drop NaN popularity rows, rename to
`tag_popularity` and label every row with `tag_` followed by the tag name with
spaces replaced by underscores. -/
def get_targeted_base (tagGrid : List GridRow) (tag_name : String) : List TagRow :=
  if tagGrid.isEmpty then []
  else
    tagGrid.filterMap fun r =>
      r.popularity.map fun p =>
        ⟨r.latitude, r.longitude, "tag_" ++ tag_name.replace " " "_", p⟩

/-- One row of the composite table `df4` built in `create_candidate_analysis`
(tools.py lines 148-149): the candidate-versus-opponent row, the left-joined
`base_popularity` column (NaN when the base frame had no match at the key) and
the left-joined wide issue columns (one `Option` value per pivoted tag column,
NaN when the tag table had no match at the key). -/
structure Df4Row extends MergedRow where
  base_popularity : Option ℚ
  tagVals : List (String × Option ℚ)
deriving DecidableEq

/-- Left merge of the candidate-versus-opponent frame with the base frame on
`(latitude, longitude)` (tools.py line 148): a left row without match keeps a
NaN base value; with matches it is duplicated once per match. -/
def leftJoinBase (l : List MergedRow) (b : List BaseRow) :
    List (MergedRow × Option ℚ) :=
  l.flatMap fun m =>
    let ms := b.filter fun br => br.latitude == m.latitude && br.longitude == m.longitude
    if ms.isEmpty then [(m, none)]
    else ms.map fun br => (m, some br.base_popularity)

/-- The column labels produced by the pivot of tools.py lines 140-145: the
distinct `tag_name` values of the concatenated tag frames. -/
def tagColumns (tags : List TagRow) : List String :=
  (tags.map TagRow.tag_name).dedup

/-- Pivot lookup with first-value aggregation: the first `tag_popularity` among
the concatenated tag rows carrying this column label and key. -/
def pivotLookup (tags : List TagRow) (lat lon : ℚ) (c : String) : Option ℚ :=
  (tags.find? fun t =>
      t.tag_name == c && t.latitude == lat && t.longitude == lon).map
    TagRow.tag_popularity

/-- Builds the composite table `df4`: base left-join then issue-column
left-join (the pivoted table has unique keys, so each left row yields exactly
one output row for that join). -/
def buildComposite (opp : List MergedRow) (b : List BaseRow)
    (tags : List TagRow) : List Df4Row :=
  (leftJoinBase opp b).map fun pr =>
    { toMergedRow := pr.1
      base_popularity := pr.2
      tagVals := (tagColumns tags).map fun c =>
        (c, pivotLookup tags pr.1.latitude pr.1.longitude c) }

/-- The derived `net_base_popularity` column (tools.py line 168):
`(popularity - base_popularity) * 100`, NaN when the base value is NaN. -/
def netBasePopularity (r : Df4Row) : Option ℚ :=
  r.base_popularity.map fun b => (r.popularity - b) * 100

/-- The `np.select` cascade for `base_popularity_status` (tools.py lines
170-178).  The condition list has no NaN case: a NaN net value fails both
comparisons and falls through to the default label. -/
def basePopularityStatusOf (net : Option ℚ) : String :=
  if nanGt net 2 then "More Popular than Party"
  else if nanLt net (-2) then "Less Popular than Party"
  else "Similar Popularity to Party"

/-- The `base_popularity_status` column of a composite row. -/
def basePopularityStatus (r : Df4Row) : String :=
  basePopularityStatusOf (netBasePopularity r)

/-- The value of issue column `c` in a composite row; NaN both when the column
is absent and when the left join produced no match. -/
def tagVal (r : Df4Row) (c : String) : Option ℚ :=
  (r.tagVals.lookup c).join

/-- pandas column mean with `skipna`: the mean of the non-NaN entries, NaN when
there are none. -/
def colMean (t : List Df4Row) (c : String) : Option ℚ :=
  let v := t.filterMap fun r => tagVal r c
  if v.isEmpty then none else some (v.sum / v.length)

/-- The derived `net_<issue>_popularity` column (tools.py lines 183-191).  The
guarded branch comparing against `base_<issue>_popularity` is dead code: the
base frame only ever contributes a column named `base_popularity`, so the
fallback against the issue column mean over the whole table is always taken. -/
def issueNet (t : List Df4Row) (c : String) (r : Df4Row) : Option ℚ :=
  match tagVal r c, colMean t c with
  | some x, some m => some ((x - m) * 100)
  | _, _ => none

/-- The `np.select` cascade for `issue_<issue>_popularity_status` (tools.py
lines 193-206): the NaN condition comes first and wins, then the strict
threshold comparisons, then the default label. -/
def issueStatusOf (net : Option ℚ) : String :=
  match net with
  | none => "Unknown"
  | some v =>
      if v > 2 then "Candidate More Popular with this Issue"
      else if v < -2 then "Candidate Less Popular with this Issue"
      else "Similar Popularity"

/-- The `issue_<issue>_popularity_status` column for issue column `c` of a
composite row within table `t`. -/
def issueStatus (t : List Df4Row) (c : String) (r : Df4Row) : String :=
  issueStatusOf (issueNet t c r)

/-- What `create_candidate_analysis` hands back to its caller: a raised
exception (the parameter-validation ValueError, thrown before the try block),
or a structured dict with an error status, or a structured dict with a success
status carrying the composite table. -/
inductive AnalysisOutcome where
  | raised (message : String)
  | errorResult (message : String)
  | successResult (table : List Df4Row)
deriving DecidableEq

/-- The valid age buckets of tools.py lines 61-64. -/
def VALID_AGES : List String :=
  ["24_and_younger", "25_to_29", "30_to_34", "35_and_younger",
   "36_to_55", "35_to_44", "45_to_54", "55_and_older"]

/-- The age check of tools.py line 65: Python only validates a truthy value, so
None and the empty string pass. -/
def validAge (age : Option String) : Bool :=
  match age with
  | none => true
  | some a => a = "" || VALID_AGES.contains a

/-- The gender check of tools.py line 69; None and the empty string pass. -/
def validGender (g : Option String) : Bool :=
  match g with
  | none => true
  | some g => g = "" || g = "male" || g = "female"

/-- Shallow embedding of `create_candidate_analysis` (tools.py lines 40-296),
given the frames its subcalls fetch.  The parameter validation of lines 57-70
runs before the try block, so its ValueError propagates to the caller
(`raised`).  Everything else is inside try/except and yields a structured
result.  When no tag frame contributes any row, the final merge with the empty
tag table raises KeyError on the missing latitude key (tools.py line 149),
which the except handler converts into an error result. -/
def create_candidate_analysis (candidate_name opponent_name candidate_base
    location : String) (age gender : Option String) (tag_names : List String)
    (candGrid oppGrid baseGrid : List GridRow)
    (tagGridFor : String → List GridRow) : AnalysisOutcome :=
  if candidate_name = "" || opponent_name = "" || candidate_base = "" ||
      location = "" then
    .raised "candidate_name, opponent_name, candidate_base, and location are required"
  else if !validAge age then
    .raised "age must be one of the valid age values"
  else if !validGender gender then
    .raised "gender must be male, female, or None"
  else
    let opponent_analysis := get_candidate_base candGrid oppGrid
    if opponent_analysis.isEmpty then
      .errorResult "No overlapping data found between the candidates"
    else
      let base_analysis := get_political_base baseGrid
      if base_analysis.isEmpty then
        .errorResult "No political base data found"
      else
        let tagsConcat :=
          tag_names.flatMap fun tn => get_targeted_base (tagGridFor tn) tn
        if tagsConcat.isEmpty then
          .errorResult "Analysis failed: KeyError latitude"
        else
          let df4 := buildComposite opponent_analysis base_analysis tagsConcat
          if df4.isEmpty then
            .errorResult "No merged data available for analysis"
          else
            .successResult df4

/-- A cell of the pickled analysis table that `filter_campaign_locations`
loads: a numeric value, a NaN, or a categorical string. -/
inductive CellVal where
  | num (q : ℚ)
  | nan
  | str (s : String)
deriving DecidableEq

/-- A table row: an association list from column name to cell value. -/
abbrev Row := List (String × CellVal)

/-- The loaded table: its column list and its rows.  Row filtering never
changes the column list, mirroring pandas. -/
structure Table where
  cols : List String
  rows : List Row
deriving DecidableEq

/-- One entry of the `filter_criteria` mapping (tools.py lines 1098-1122): the
two numeric threshold keys, or a categorical column with the accepted values
(a single string given by the caller is wrapped into a singleton list at line
1115). -/
inductive Criterion where
  | minAffinity (t : ℚ)
  | minPopularity (t : ℚ)
  | cat (col : String) (vals : List String)
deriving DecidableEq

/-- The pandas mask `df[c] >= t` at one row: true only for a numeric cell at
least the threshold; NaN and non-numeric cells fail. -/
def cellGe (r : Row) (c : String) (t : ℚ) : Bool :=
  match r.lookup c with
  | some (.num q) => t ≤ q
  | _ => false

/-- The pandas mask `df[c].isin(vals)` at one row for string-valued criteria:
true only for a string cell contained in the list. -/
def cellIsin (r : Row) (c : String) (vals : List String) : Bool :=
  match r.lookup c with
  | some (.str s) => vals.contains s
  | _ => false

/-- Running state of the filter loop: the surviving rows, the
`applied_filters` provenance entries (modelled as the applied criteria) and the
column names warned about at tools.py line 1122. -/
structure FilterState where
  rows : List Row
  applied : List Criterion
  warnings : List String
deriving DecidableEq

/-- One iteration of the filter loop (tools.py lines 1098-1122).  A numeric
key whose column is absent is skipped with no effect at all (the inner
if/elif has no else branch); an unknown categorical column is skipped with a
logged warning; otherwise the surviving rows are narrowed and the provenance
entry is appended. -/
def applyCriterion (cols : List String) (s : FilterState) (c : Criterion) :
    FilterState :=
  match c with
  | .minAffinity t =>
      if cols.contains "affinity" then
        { s with
          rows := s.rows.filter fun r => cellGe r "affinity" t,
          applied := s.applied ++ [c] }
      else s
  | .minPopularity t =>
      if cols.contains "popularity" then
        { s with
          rows := s.rows.filter fun r => cellGe r "popularity" t,
          applied := s.applied ++ [c] }
      else s
  | .cat col vals =>
      if cols.contains col then
        { s with
          rows := s.rows.filter fun r => cellIsin r col vals,
          applied := s.applied ++ [c] }
      else
        { s with warnings := s.warnings ++ [col] }

/-- The sequential-narrowing filter loop of `filter_campaign_locations`
(tools.py lines 1090-1124): each criterion operates on the output of the
previous one, in the caller-supplied order. -/
def filter_campaign_locations (t : Table) (criteria : List Criterion) :
    FilterState :=
  criteria.foldl (applyCriterion t.cols) ⟨t.rows, [], []⟩

/-- The coordinate extraction of tools.py lines 1135-1137: the
`(latitude, longitude)` cells of every surviving row, in order. -/
def extractCoordinates (rows : List Row) : List (Option CellVal × Option CellVal) :=
  rows.map fun r => (r.lookup "latitude", r.lookup "longitude")

/-- The conjunctive per-row predicate a single criterion contributes: a
skipped criterion keeps every row. -/
def critPred (cols : List String) (c : Criterion) : Row → Bool :=
  match c with
  | .minAffinity t => fun r =>
      if cols.contains "affinity" then cellGe r "affinity" t else true
  | .minPopularity t => fun r =>
      if cols.contains "popularity" then cellGe r "popularity" t else true
  | .cat col vals => fun r =>
      if cols.contains col then cellIsin r col vals else true

/-! Helper lemmas shared by the claim theorems. -/

/-- Every row of the merged candidate-versus-opponent frame carries a
`net_popularity` computed from its own popularity columns and a
`popularity_status` computed from that net value. -/
lemma mem_mergeCandOpp_status {cand : List CandRow} {opp : List OppRow}
    {r : MergedRow} (h : r ∈ mergeCandOpp cand opp) :
    r.net_popularity = (r.popularity - r.opponent_popularity) * 100 ∧
    r.popularity_status = popularityStatusOf r.net_popularity := by
  unfold mergeCandOpp at h
  simp only [List.mem_flatMap, List.mem_map, List.mem_filter] at h
  obtain ⟨c, hc, o, ho, rfl⟩ := h
  exact ⟨rfl, rfl⟩

/-- Membership in the result of `get_candidate_base` comes from the inner
merge of the two dropna-filtered frames. -/
lemma mem_get_candidate_base {cg og : List GridRow} {r : MergedRow}
    (h : r ∈ get_candidate_base cg og) :
    r ∈ mergeCandOpp (dropnaCandidate cg) (opponentSelect og) := by
  simp only [get_candidate_base] at h
  split_ifs at h
  · exact absurd h (List.not_mem_nil r)
  · exact absurd h (List.not_mem_nil r)
  · exact absurd h (List.not_mem_nil r)
  · exact absurd h (List.not_mem_nil r)
  · exact h

/-- Evaluation of the opponent-axis status at the two boundary values. -/
lemma popularityStatusOf_boundary :
    popularityStatusOf 2 = "Similar to Opponent" ∧
    popularityStatusOf (-2) = "Similar to Opponent" := by
  constructor <;>
    · unfold popularityStatusOf
      rw [if_neg (by norm_num), if_neg (by norm_num)]

/-- Evaluation of the base-axis status at the two boundary values. -/
lemma basePopularityStatusOf_boundary :
    basePopularityStatusOf (some 2) = "Similar Popularity to Party" ∧
    basePopularityStatusOf (some (-2)) = "Similar Popularity to Party" := by
  constructor <;>
    · unfold basePopularityStatusOf nanGt nanLt
      rw [if_neg (by norm_num), if_neg (by norm_num)]

/-- C6: the status thresholds are strict on both boundaries.  On the opponent
axis, every row of `get_candidate_base` whose `net_popularity` is exactly 2.0
or exactly -2.0 is labeled with the similar default, never leading or
trailing; on the base axis, every composite row whose `net_base_popularity` is
exactly 2.0 or exactly -2.0 is likewise labeled with the similar default. -/
theorem C6_boundary_thresholds :
    (∀ (cg og : List GridRow) (r : MergedRow), r ∈ get_candidate_base cg og →
      (r.net_popularity = 2 → r.popularity_status = "Similar to Opponent") ∧
      (r.net_popularity = -2 → r.popularity_status = "Similar to Opponent")) ∧
    (∀ (opp : List MergedRow) (b : List BaseRow) (tags : List TagRow)
      (r : Df4Row), r ∈ buildComposite opp b tags →
      (netBasePopularity r = some 2 →
        basePopularityStatus r = "Similar Popularity to Party") ∧
      (netBasePopularity r = some (-2) →
        basePopularityStatus r = "Similar Popularity to Party")) := by
  constructor
  · intro cg og r h
    have hs := (mem_mergeCandOpp_status (mem_get_candidate_base h)).2
    constructor
    · intro hnet
      rw [hs, hnet]
      exact popularityStatusOf_boundary.1
    · intro hnet
      rw [hs, hnet]
      exact popularityStatusOf_boundary.2
  · intro opp b tags r _
    constructor
    · intro hnet
      rw [basePopularityStatus, hnet]
      exact basePopularityStatusOf_boundary.1
    · intro hnet
      rw [basePopularityStatus, hnet]
      exact basePopularityStatusOf_boundary.2

/-- Concrete candidate grid row for the C6 witness: popularity 0.52. -/
def gC6c : GridRow :=
  ⟨⟨1, 1, "gh1", some (3/5), some (13/25), 0, 0⟩, "HA-LP", some "Hidden Goldmine"⟩

/-- Concrete opponent grid row for the C6 witness: popularity 0.50, so the net
value is exactly (0.52 - 0.50) * 100 = 2. -/
def gC6o : GridRow :=
  ⟨⟨1, 1, "gh1", some (1/2), some (1/2), 0, 0⟩, "LA-LP", some "Deep Conversion"⟩

/-- The merged row `get_candidate_base` produces from the two C6 witness
rows. -/
def mC6 : MergedRow :=
  ⟨⟨1, 1, "gh1", some (3/5), 13/25, 0, 0, "HA-LP", some "Hidden Goldmine"⟩,
    1/2, 2, "Similar to Opponent"⟩

/-- Witness for C6 at a concrete run with a net value of exactly 2. -/
theorem C6_boundary_thresholds_witness :
    mC6.net_popularity = 2 ∧ mC6.popularity_status = "Similar to Opponent" := by
  have hmem : mC6 ∈ get_candidate_base [gC6c] [gC6o] := by
    with_unfolding_all exact List.Mem.head _
  exact ⟨rfl, (C6_boundary_thresholds.1 [gC6c] [gC6o] mC6 hmem).1 rfl⟩

/-- C7: quadrant assignment is a total deterministic function of the pair
(affinity, popularity): for non-NaN inputs the result is always one of the
four segment labels and always carries a strategy; affinity 0.6 and popularity
0.6 give HA-HP with strategy Rally the Base; affinity 0.59 gives an LA segment
for every popularity value. -/
theorem C7_quadrant_total :
    (∀ a p : ℚ, segmentOf (some a) (some p) = "HA-HP" ∨
      segmentOf (some a) (some p) = "HA-LP" ∨
      segmentOf (some a) (some p) = "LA-HP" ∨
      segmentOf (some a) (some p) = "LA-LP") ∧
    (∀ a p : ℚ, (strategyMap (segmentOf (some a) (some p))).isSome = true) ∧
    segmentOf (some (3/5)) (some (3/5)) = "HA-HP" ∧
    strategyMap (segmentOf (some (3/5)) (some (3/5))) = some "Rally the Base" ∧
    (∀ p : ℚ, segmentOf (some (59/100)) (some p) = "LA-HP" ∨
      segmentOf (some (59/100)) (some p) = "LA-LP") := by
  have hseg : ∀ a p : ℚ, segmentOf (some a) (some p) = "HA-HP" ∨
      segmentOf (some a) (some p) = "HA-LP" ∨
      segmentOf (some a) (some p) = "LA-HP" ∨
      segmentOf (some a) (some p) = "LA-LP" := by
    intro a p
    unfold segmentOf nanGe nanLt
    rcases lt_or_le a (3/5 : ℚ) with h1 | h1 <;>
      rcases lt_or_le p (3/5 : ℚ) with h2 | h2
    · simp [h1, h2, h1.not_le, h2.not_le]
    · simp [h1, h2, h1.not_le, h2.not_lt]
    · simp [h1, h2, h1.not_lt, h2.not_le]
    · simp [h1, h2, h1.not_lt, h2.not_lt]
  have hsix : segmentOf (some ((3:ℚ)/5)) (some ((3:ℚ)/5)) = "HA-HP" := by
    unfold segmentOf nanGe
    rw [if_pos (by norm_num)]
  refine ⟨hseg, ?_, hsix, ?_, ?_⟩
  · intro a p
    rcases hseg a p with h | h | h | h <;> rw [h] <;> rfl
  · rw [hsix]
    rfl
  · intro p
    unfold segmentOf nanGe nanLt
    have h1 : ¬((3:ℚ)/5 ≤ 59/100) := by norm_num
    have h2 : (59:ℚ)/100 < 3/5 := by norm_num
    rcases lt_or_le p (3/5 : ℚ) with hp | hp
    · right
      simp [h1, h2, hp, hp.not_le]
    · left
      simp [h1, h2, hp, hp.not_lt]

/-- Witness for C7 at concrete affinity/popularity pairs. -/
theorem C7_quadrant_total_witness :
    (segmentOf (some ((9:ℚ)/10)) (some ((1:ℚ)/10)) = "HA-HP" ∨
      segmentOf (some ((9:ℚ)/10)) (some ((1:ℚ)/10)) = "HA-LP" ∨
      segmentOf (some ((9:ℚ)/10)) (some ((1:ℚ)/10)) = "LA-HP" ∨
      segmentOf (some ((9:ℚ)/10)) (some ((1:ℚ)/10)) = "LA-LP") ∧
    (segmentOf (some ((59:ℚ)/100)) (some ((9:ℚ)/10)) = "LA-HP" ∨
      segmentOf (some ((59:ℚ)/100)) (some ((9:ℚ)/10)) = "LA-LP") :=
  ⟨C7_quadrant_total.1 (9/10) (1/10), C7_quadrant_total.2.2.2.2 (9/10)⟩

/-- C10: a provider point with an absent affinity or popularity field is
retained with 0 substituted for the missing value: the point list keeps its
length, the normalized point stores 0 in the missing column, the hotspot score
is computed with the 0 value, and a point missing both fields is classified
LA-LP with strategy Deep Conversion. -/
theorem C10_missing_fields_default_zero :
    (∀ ps : List RawPoint, (processPoints ps).length = ps.length) ∧
    (∀ rp : RawPoint, rp.query.affinity = none →
      (processPoint rp).affinity = some 0 ∧
      (processPoint rp).hotspot_score = rp.query.popularity.getD 0 * (2/5)) ∧
    (∀ rp : RawPoint, rp.query.popularity = none →
      (processPoint rp).popularity = some 0 ∧
      (processPoint rp).hotspot_score = rp.query.affinity.getD 0 * (3/5)) ∧
    (∀ rp : RawPoint, rp.query.affinity = none → rp.query.popularity = none →
      (addSegment (processPoint rp)).segment = "LA-LP" ∧
      (addSegment (processPoint rp)).strategy = some "Deep Conversion") := by
  refine ⟨?_, ?_, ?_, ?_⟩
  · intro ps
    simp [processPoints]
  · intro rp h
    constructor
    · simp [processPoint, h]
    · simp [processPoint, h]
  · intro rp h
    constructor
    · simp [processPoint, h]
    · simp [processPoint, h]
  · intro rp h1 h2
    have hseg : (addSegment (processPoint rp)).segment = segmentOf (some 0) (some 0) := by
      simp [addSegment, processPoint, h1, h2]
    have hz : segmentOf (some (0:ℚ)) (some (0:ℚ)) = "LA-LP" := by
      unfold segmentOf nanGe nanLt
      rw [if_neg (by norm_num), if_neg (by norm_num), if_neg (by norm_num),
        if_pos (by norm_num)]
    constructor
    · rw [hseg, hz]
    · have hst : (addSegment (processPoint rp)).strategy =
          strategyMap (segmentOf (some 0) (some 0)) := by
        simp [addSegment, processPoint, h1, h2]
      rw [hst, hz]
      rfl

/-- Concrete raw point with both query fields absent, for the C10 witness. -/
def rpC10 : RawPoint := ⟨7, 8, "gh2", ⟨none, none, none⟩⟩

/-- Witness for C10 at a concrete point with both fields absent. -/
theorem C10_missing_fields_default_zero_witness :
    (processPoints [rpC10]).length = [rpC10].length ∧
    (processPoint rpC10).affinity = some 0 ∧
    (addSegment (processPoint rpC10)).segment = "LA-LP" ∧
    (addSegment (processPoint rpC10)).strategy = some "Deep Conversion" :=
  ⟨C10_missing_fields_default_zero.1 [rpC10],
    (C10_missing_fields_default_zero.2.1 rpC10 rfl).1,
    (C10_missing_fields_default_zero.2.2.2 rpC10 rfl rfl).1,
    (C10_missing_fields_default_zero.2.2.2 rpC10 rfl rfl).2⟩

/-- A surviving candidate row comes from a grid row with non-NaN
popularity at the same key. -/
lemma mem_dropnaCandidate {cg : List GridRow} {c : CandRow}
    (h : c ∈ dropnaCandidate cg) :
    ∃ g ∈ cg, g.latitude = c.latitude ∧ g.longitude = c.longitude ∧
      g.popularity = some c.popularity := by
  unfold dropnaCandidate at h
  simp only [List.mem_filterMap] at h
  obtain ⟨g, hg, hgc⟩ := h
  cases hpop : g.popularity with
  | none =>
      rw [hpop] at hgc
      exact absurd hgc (by simp)
  | some p =>
      rw [hpop] at hgc
      simp only [Option.map_some', Option.some.injEq] at hgc
      subst hgc
      exact ⟨g, hg, rfl, rfl, hpop⟩

/-- A surviving opponent row comes from a grid row with non-NaN popularity at
the same key. -/
lemma mem_opponentSelect {og : List GridRow} {o : OppRow}
    (h : o ∈ opponentSelect og) :
    ∃ g ∈ og, g.latitude = o.latitude ∧ g.longitude = o.longitude ∧
      g.popularity = some o.opponent_popularity := by
  unfold opponentSelect at h
  simp only [List.mem_filterMap] at h
  obtain ⟨g, hg, hgc⟩ := h
  cases hpop : g.popularity with
  | none =>
      rw [hpop] at hgc
      exact absurd hgc (by simp)
  | some p =>
      rw [hpop] at hgc
      simp only [Option.map_some', Option.some.injEq] at hgc
      subst hgc
      exact ⟨g, hg, rfl, rfl, hpop⟩

/-- Candidate grid row with NaN affinity but valid popularity, for C5. -/
def gC5c : GridRow := ⟨⟨1, 1, "gh3", none, some (1/2), 0, 0⟩, "Unknown", none⟩

/-- Opponent grid row at the same key, for C5. -/
def gC5o : GridRow :=
  ⟨⟨1, 1, "gh3", some (3/10), some (3/10), 0, 0⟩, "LA-LP", some "Deep Conversion"⟩

/-- The merged row produced from the two C5 rows; its affinity is NaN. -/
def mC5 : MergedRow :=
  ⟨⟨1, 1, "gh3", none, 1/2, 0, 0, "Unknown", none⟩, 3/10, 20, "Leading Opponent"⟩

/-- Counterexample to C5 as stated: a candidate row whose affinity is NaN (but
whose popularity is valid) is not excluded before the join - it participates
in the candidate-versus-opponent merge and yields a merged row with NaN
affinity. -/
theorem C5_counterexample :
    get_candidate_base [gC5c] [gC5o] = [mC5] ∧ mC5.affinity = none := by
  constructor
  · with_unfolding_all rfl
  · rfl

/-- C5 amended: before the candidate-versus-opponent join, rows with NaN
popularity (or missing coordinates) are dropped on both sides - every merged
row originates from a candidate row and an opponent row with non-NaN
popularity at its key - but NaN affinity is not excluded. -/
theorem C5_popularity_dropped_before_join :
    ∀ (cg og : List GridRow) (r : MergedRow), r ∈ get_candidate_base cg og →
      (∃ c ∈ cg, c.latitude = r.latitude ∧ c.longitude = r.longitude ∧
        c.popularity = some r.popularity) ∧
      (∃ o ∈ og, o.latitude = r.latitude ∧ o.longitude = r.longitude ∧
        o.popularity = some r.opponent_popularity) := by
  intro cg og r h
  have h2 := mem_get_candidate_base h
  unfold mergeCandOpp at h2
  simp only [List.mem_flatMap, List.mem_map, List.mem_filter] at h2
  obtain ⟨c, hc, o, ⟨ho, hkey⟩, rfl⟩ := h2
  rw [Bool.and_eq_true, beq_iff_eq, beq_iff_eq] at hkey
  obtain ⟨hlat, hlon⟩ := hkey
  obtain ⟨g, hg, hg1, hg2, hg3⟩ := mem_dropnaCandidate hc
  obtain ⟨g2, hg2m, hg21, hg22, hg23⟩ := mem_opponentSelect ho
  constructor
  · exact ⟨g, hg, hg1, hg2, hg3⟩
  · exact ⟨g2, hg2m, by rw [hg21, hlat], by rw [hg22, hlon], hg23⟩

/-- Witness for the amended C5 at the concrete run of the counterexample. -/
theorem C5_popularity_dropped_before_join_witness :
    (∃ c ∈ [gC5c], c.latitude = mC5.latitude ∧ c.longitude = mC5.longitude ∧
      c.popularity = some mC5.popularity) ∧
    (∃ o ∈ [gC5o], o.latitude = mC5.latitude ∧ o.longitude = mC5.longitude ∧
      o.popularity = some mC5.opponent_popularity) :=
  C5_popularity_dropped_before_join [gC5c] [gC5o] mC5
    (by with_unfolding_all exact List.Mem.head _)

/-- Candidate grid row at key (2, 2) for C1. -/
def gC1c : GridRow :=
  ⟨⟨2, 2, "gh4", some (1/2), some (1/2), 0, 0⟩, "LA-LP", some "Deep Conversion"⟩

/-- Opponent grid row at key (2, 2) for C1. -/
def gC1o : GridRow :=
  ⟨⟨2, 2, "gh4", some (3/10), some (3/10), 0, 0⟩, "LA-LP", some "Deep Conversion"⟩

/-- Base grid row at key (1, 1) only, so the composite row at (2, 2) has no
base match. -/
def gC1b : GridRow :=
  ⟨⟨1, 1, "gh5", some (2/5), some (2/5), 0, 0⟩, "LA-LP", some "Deep Conversion"⟩

/-- Economy-tag grid row at key (2, 2) for C1. -/
def gC1t : GridRow :=
  ⟨⟨2, 2, "gh4", some (9/20), some (9/20), 0, 0⟩, "LA-LP", some "Deep Conversion"⟩

/-- Health-tag grid row at key (1, 1) only, so the composite row at (2, 2) has
no health value. -/
def gC1t2 : GridRow :=
  ⟨⟨1, 1, "gh5", some (1/4), some (1/4), 0, 0⟩, "LA-LP", some "Deep Conversion"⟩

/-- Per-tag fetched frames for the C1 run. -/
def tfC1 : String → List GridRow := fun n =>
  if n = "economy" then [gC1t] else if n = "health" then [gC1t2] else []

/-- The single composite row the C1 run produces: no base match (NaN base
popularity) and no health-tag match. -/
def rC1 : Df4Row :=
  ⟨⟨⟨2, 2, "gh4", some (1/2), 1/2, 0, 0, "LA-LP", some "Deep Conversion"⟩,
      3/10, 20, "Leading Opponent"⟩,
    none, [("tag_economy", some (9/20)), ("tag_health", none)]⟩

/-- Counterexample to C1 as stated: in the composite table built by
`create_candidate_analysis`, the row whose base comparison value is missing
(NaN `net_base_popularity`, because the base frame had no match at its key) is
labeled with the similar default on the base axis, not with Unknown. -/
theorem C1_counterexample :
    create_candidate_analysis "cand" "opp" "progressive" "Phoenix" none none
      ["economy", "health"] [gC1c] [gC1o] [gC1b] tfC1 =
      .successResult [rC1] ∧
    netBasePopularity rC1 = none ∧
    basePopularityStatus rC1 = "Similar Popularity to Party" := by
  refine ⟨?_, rfl, ?_⟩
  · with_unfolding_all rfl
  · with_unfolding_all rfl

/-- C1 amended: in the composite table built by `create_candidate_analysis`,
a row whose issue comparison value is missing receives Unknown on that issue
axis, but a row whose base comparison value is missing receives the similar
default label on the base axis, not Unknown. -/
theorem C1_missing_value_statuses :
    ∀ (cn opn cb loc : String) (age gender : Option String)
      (tag_names : List String) (cg og bg : List GridRow)
      (tf : String → List GridRow) (t : List Df4Row) (r : Df4Row) (c : String),
      create_candidate_analysis cn opn cb loc age gender tag_names cg og bg tf =
        .successResult t →
      r ∈ t →
      (tagVal r c = none → issueStatus t c r = "Unknown") ∧
      (r.base_popularity = none →
        basePopularityStatus r = "Similar Popularity to Party") := by
  intro cn opn cb loc age gender tag_names cg og bg tf t r c _ _
  constructor
  · intro hv
    unfold issueStatus issueNet
    rw [hv]
    cases colMean t c <;> rfl
  · intro hb
    unfold basePopularityStatus netBasePopularity
    rw [hb]
    rfl

/-- Witness for the amended C1 at the concrete run of the counterexample. -/
theorem C1_missing_value_statuses_witness :
    issueStatus [rC1] "tag_health" rC1 = "Unknown" ∧
    basePopularityStatus rC1 = "Similar Popularity to Party" := by
  have h := C1_missing_value_statuses "cand" "opp" "progressive" "Phoenix"
    none none ["economy", "health"] [gC1c] [gC1o] [gC1b] tfC1 [rC1] rC1
    "tag_health" (by with_unfolding_all rfl) (List.mem_singleton.mpr rfl)
  exact ⟨h.1 rfl, h.2 rfl⟩

/-- Counterexample to C3 as stated: an empty required name, or an unrecognized
age value, makes `create_candidate_analysis` raise ValueError to its caller
(the validation runs before the try block), instead of returning a structured
result. -/
theorem C3_counterexample :
    create_candidate_analysis "" "opp" "progressive" "Phoenix" none none []
      [] [] [] (fun _ => []) =
      .raised "candidate_name, opponent_name, candidate_base, and location are required" ∧
    create_candidate_analysis "cand" "opp" "progressive" "Phoenix"
      (some "teenager") none [] [] [] [] (fun _ => []) =
      .raised "age must be one of the valid age values" := by
  constructor <;> rfl

/-- C3 amended: for every input that passes the parameter validation
(non-empty required names, recognized age and gender), the entry point returns
a structured result carrying a status and message - an error result or a
success result - and never raises; inputs failing validation raise ValueError
before the try block. -/
theorem C3_structured_after_validation :
    ∀ (cn opn cb loc : String) (age gender : Option String)
      (tag_names : List String) (cg og bg : List GridRow)
      (tf : String → List GridRow),
      cn ≠ "" → opn ≠ "" → cb ≠ "" → loc ≠ "" →
      validAge age = true → validGender gender = true →
      (∃ m, create_candidate_analysis cn opn cb loc age gender tag_names
        cg og bg tf = .errorResult m) ∨
      (∃ t, create_candidate_analysis cn opn cb loc age gender tag_names
        cg og bg tf = .successResult t) := by
  intro cn opn cb loc age gender tag_names cg og bg tf h1 h2 h3 h4 h5 h6
  simp only [create_candidate_analysis]
  rw [if_neg (by simp [h1, h2, h3, h4]), if_neg (by simp [h5]),
    if_neg (by simp [h6])]
  split_ifs <;> first
    | exact Or.inl ⟨_, rfl⟩
    | exact Or.inr ⟨_, rfl⟩

/-- Witness for the amended C3 at concrete valid parameters. -/
theorem C3_structured_after_validation_witness :
    (∃ m, create_candidate_analysis "cand" "opp" "progressive" "Phoenix"
      none none [] [] [] [] (fun _ => []) = .errorResult m) ∨
    (∃ t, create_candidate_analysis "cand" "opp" "progressive" "Phoenix"
      none none [] [] [] [] (fun _ => []) = .successResult t) :=
  C3_structured_after_validation "cand" "opp" "progressive" "Phoenix" none none
    [] [] [] [] (fun _ => []) (by decide) (by decide) (by decide) (by decide)
    rfl rfl

/-- Whether an entity search outcome produced a usable match: the code takes
the first entity only when the response succeeds and the match list is
non-empty (heatmap.py line 103). -/
def searchMatched (o : SearchOutcome) : Bool :=
  match o with
  | .resp true (_ :: _) => true
  | _ => false

/-- A failing entity search leaves the collected ids unchanged and records
`success=false` for the name. -/
lemma resolveEntityStep_fail {oracle : String → SearchOutcome} {name : String}
    (acc : Resolution) (h : searchMatched (oracle name) = false) :
    (resolveEntityStep oracle acc name).ids = acc.ids ∧
    (resolveEntityStep oracle acc name).res = acc.res ++ [(name, false)] := by
  unfold resolveEntityStep
  cases ho : oracle name with
  | raised m => exact ⟨rfl, rfl⟩
  | resp s es =>
      cases s with
      | false => exact ⟨rfl, rfl⟩
      | true =>
          cases es with
          | nil => exact ⟨rfl, rfl⟩
          | cons e es2 => simp [searchMatched, ho] at h

/-- Folding the entity resolution loop over names whose searches all fail
collects no ids and records `success=false` for every name, in order. -/
lemma resolveEntities_fail_aux {oracle : String → SearchOutcome} :
    ∀ (names : List String) (acc : Resolution),
      (∀ n ∈ names, searchMatched (oracle n) = false) →
      (names.foldl (resolveEntityStep oracle) acc).ids = acc.ids ∧
      (names.foldl (resolveEntityStep oracle) acc).res =
        acc.res ++ names.map (fun n => (n, false)) := by
  intro names
  induction names with
  | nil =>
      intro acc h
      exact ⟨rfl, by simp⟩
  | cons n ns ih =>
      intro acc h
      have hstep := resolveEntityStep_fail acc (h n (List.mem_cons_self n ns))
      have hrest := ih (resolveEntityStep oracle acc n)
        (fun m hm => h m (List.mem_cons_of_mem n hm))
      constructor
      · rw [List.foldl_cons, hrest.1, hstep.1]
      · rw [List.foldl_cons, hrest.2, hstep.2]
        simp

/-- When every entity search fails, the resolution produces no ids and a
`success=false` record per name. -/
lemma resolveEntities_fail {oracle : String → SearchOutcome}
    {names : List String}
    (h : ∀ n ∈ names, searchMatched (oracle n) = false) :
    (resolveEntities oracle names).ids = [] ∧
    (resolveEntities oracle names).res = names.map (fun n => (n, false)) := by
  have h2 := resolveEntities_fail_aux names ⟨[], [], []⟩ h
  simpa [resolveEntities] using h2

/-- Every branch of the grid-call handling returns the same resolution
records. -/
lemma heatmap_entityRes (sE : String → SearchOutcome)
    (sT : String → TagSearchOutcome)
    (grid : Option (List String) → Option (List String) → GridOutcome)
    (ens tns aids : List String) (age gender : Option String) :
    (get_complete_heatmap_analysis sE sT grid ens tns aids age gender).entityRes =
      (resolveEntities sE ens).res := by
  simp only [get_complete_heatmap_analysis]
  split
  · rfl
  · split <;> rfl
  · rfl

/-- Every run issues the search calls followed by exactly one grid-fetch call,
whatever the grid call returns. -/
lemma heatmap_calls (sE : String → SearchOutcome)
    (sT : String → TagSearchOutcome)
    (grid : Option (List String) → Option (List String) → GridOutcome)
    (ens tns aids : List String) (age gender : Option String) :
    (get_complete_heatmap_analysis sE sT grid ens tns aids age gender).calls =
      ens.map CallEvent.searchEntities ++ tns.map CallEvent.searchTags ++
        [CallEvent.gridFetch
          (if (resolveEntities sE ens).ids.isEmpty then none
            else some (resolveEntities sE ens).ids)
          (if (resolveTags sT tns).ids.isEmpty then none
            else some (resolveTags sT tns).ids)
          (age.isSome || gender.isSome || !aids.isEmpty)] := by
  simp only [get_complete_heatmap_analysis]
  split
  · rfl
  · split <;> rfl
  · rfl

/-- Entity search oracle that never matches, for the C4 run. -/
def seC4 : String → SearchOutcome := fun _ => .resp true []

/-- Tag search oracle for the C4 run; no tags are requested. -/
def stC4 : String → TagSearchOutcome := fun _ => .resp true []

/-- Grid oracle for the C4 run. -/
def grC4 : Option (List String) → Option (List String) → GridOutcome :=
  fun _ _ => .resp true [] ""

/-- The C4 run: one entity name whose resolution fails, no tags. -/
def runC4 : HeatmapOutput :=
  get_complete_heatmap_analysis seC4 stC4 grC4 ["Candidate X"] [] [] none none

/-- Counterexample to C4 as stated: a run in which resolution of the only
entity name fails (`success=false` is recorded without throwing) still issues
the grid-fetch network call - `get_complete_heatmap_analysis` does not
short-circuit. -/
theorem C4_counterexample :
    runC4.entityRes = [("Candidate X", false)] ∧
    CallEvent.gridFetch none none false ∈ runC4.calls := by
  constructor
  · rfl
  · with_unfolding_all exact List.Mem.tail _ (List.Mem.head _)

/-- C4 amended: when every entity resolution fails, `success=false` is
recorded per name without throwing, and the grid-fetch call is still issued,
with the `entity_ids` argument set to None - there is no short-circuit before
the grid-fetch network call. -/
theorem C4_no_short_circuit :
    ∀ (sE : String → SearchOutcome) (sT : String → TagSearchOutcome)
      (grid : Option (List String) → Option (List String) → GridOutcome)
      (ens tns aids : List String) (age gender : Option String),
      (∀ n ∈ ens, searchMatched (sE n) = false) →
      (get_complete_heatmap_analysis sE sT grid ens tns aids age gender).entityRes =
        ens.map (fun n => (n, false)) ∧
      ∃ tids sig, CallEvent.gridFetch none tids sig ∈
        (get_complete_heatmap_analysis sE sT grid ens tns aids age gender).calls := by
  intro sE sT grid ens tns aids age gender h
  have hre := resolveEntities_fail h
  constructor
  · rw [heatmap_entityRes, hre.2]
  · refine ⟨(if (resolveTags sT tns).ids.isEmpty then none
        else some (resolveTags sT tns).ids),
      (age.isSome || gender.isSome || !aids.isEmpty), ?_⟩
    rw [heatmap_calls]
    have hn : (if (resolveEntities sE ens).ids.isEmpty then none
        else some (resolveEntities sE ens).ids) = (none : Option (List String)) := by
      rw [hre.1]
      rfl
    rw [hn]
    exact List.mem_append_right _ (List.mem_singleton.mpr rfl)

/-- Witness for the amended C4 at the concrete failing-resolution run. -/
theorem C4_no_short_circuit_witness :
    runC4.entityRes = [("Candidate X", false)] ∧
    ∃ tids sig, CallEvent.gridFetch none tids sig ∈ runC4.calls := by
  have h := C4_no_short_circuit seC4 stC4 grC4 ["Candidate X"] [] [] none none
    (by
      intro n hn
      rfl)
  exact ⟨h.1, h.2⟩

/-- C2 evaluated at its three failure inputs.  The claim says the function
returns an explicitly-empty Grid and never raises; the code instead
* raises UnboundLocalError when the provider reports `success=false` (the
  final `return df` runs with `df` never assigned),
* returns the `result` dict - not a DataFrame - when the provider call
  raises,
* and only on the zero-points path does it return the empty frame. -/
theorem C2_failure_paths_eval :
    (get_complete_heatmap_analysis seC4 stC4 (fun _ _ => .resp false [] "server error")
      [] [] [] none none).ret = .raisedUnbound ∧
    (get_complete_heatmap_analysis seC4 stC4 (fun _ _ => .raised "timeout")
      [] [] [] none none).ret = .dictResult false "Heatmap API failed: timeout" ∧
    (get_complete_heatmap_analysis seC4 stC4 (fun _ _ => .resp true [] "")
      [] [] [] none none).ret = .frame [] :=
  ⟨rfl, rfl, rfl⟩

/-- One filter step narrows the surviving rows by exactly the per-row
predicate of its criterion (a skipped criterion keeps every row). -/
lemma applyCriterion_rows (cols : List String) (s : FilterState) (c : Criterion) :
    (applyCriterion cols s c).rows = s.rows.filter (critPred cols c) := by
  cases c with
  | minAffinity t =>
      by_cases h : "affinity" ∈ cols <;>
        simp [applyCriterion, critPred, h, List.filter_true]
  | minPopularity t =>
      by_cases h : "popularity" ∈ cols <;>
        simp [applyCriterion, critPred, h, List.filter_true]
  | cat col vals =>
      by_cases h : col ∈ cols <;>
        simp [applyCriterion, critPred, h, List.filter_true]

/-- The sequential narrowing loop computes the filter by the conjunction of
all the per-criterion predicates. -/
lemma foldl_filter_rows (cols : List String) :
    ∀ (cs : List Criterion) (s : FilterState),
      (cs.foldl (applyCriterion cols) s).rows =
        s.rows.filter (fun r => cs.all (fun c => critPred cols c r)) := by
  intro cs
  induction cs with
  | nil =>
      intro s
      simp
  | cons c cs ih =>
      intro s
      rw [List.foldl_cons, ih, applyCriterion_rows, List.filter_filter]
      apply List.filter_congr
      intro r _
      rw [List.all_cons]
      exact Bool.and_comm _ _

/-- A boolean conjunction over a list is invariant under permutation. -/
lemma all_congr_perm {α : Type} {l1 l2 : List α} (h : l1.Perm l2)
    (f : α → Bool) : l1.all f = l2.all f := by
  have h2 : (l1.all f = true) ↔ (l2.all f = true) := by
    simp only [List.all_eq_true]
    exact ⟨fun H x hx => H x (h.mem_iff.mpr hx),
      fun H x hx => H x (h.mem_iff.mp hx)⟩
  cases ha : l1.all f <;> cases hb : l2.all f <;> simp_all

/-- C8: applying the filter criteria in any two orders yields the same final
list of surviving rows, and hence the same extracted coordinate list; order
affects only the intermediate provenance, never the result. -/
theorem C8_filter_order_invariant :
    ∀ (t : Table) (cs1 cs2 : List Criterion), cs1.Perm cs2 →
      (filter_campaign_locations t cs1).rows =
        (filter_campaign_locations t cs2).rows ∧
      extractCoordinates (filter_campaign_locations t cs1).rows =
        extractCoordinates (filter_campaign_locations t cs2).rows := by
  intro t cs1 cs2 h
  have hr : (filter_campaign_locations t cs1).rows =
      (filter_campaign_locations t cs2).rows := by
    unfold filter_campaign_locations
    rw [foldl_filter_rows, foldl_filter_rows]
    apply List.filter_congr
    intro r _
    exact all_congr_perm h (fun c => critPred t.cols c r)
  exact ⟨hr, by rw [hr]⟩

/-- First row of the C8 witness table: high affinity, Rally the Base. -/
def rowC8a : Row :=
  [("latitude", .num 1), ("longitude", .num 1), ("affinity", .num (7/10)),
    ("strategy", .str "Rally the Base")]

/-- Second row of the C8 witness table: low affinity, Rally the Base. -/
def rowC8b : Row :=
  [("latitude", .num 2), ("longitude", .num 2), ("affinity", .num (1/2)),
    ("strategy", .str "Rally the Base")]

/-- Third row of the C8 witness table: high affinity, Deep Conversion. -/
def rowC8c : Row :=
  [("latitude", .num 3), ("longitude", .num 3), ("affinity", .num (9/10)),
    ("strategy", .str "Deep Conversion")]

/-- The C8 witness table. -/
def tC8 : Table :=
  ⟨["latitude", "longitude", "affinity", "strategy"], [rowC8a, rowC8b, rowC8c]⟩

/-- The C8 witness criteria in one order. -/
def csC8 : List Criterion :=
  [.cat "strategy" ["Rally the Base"], .minAffinity (3/5)]

/-- The C8 witness criteria in the swapped order. -/
def csC8r : List Criterion :=
  [.minAffinity (3/5), .cat "strategy" ["Rally the Base"]]

/-- Witness for C8 at a concrete table and a concrete pair of criterion
orders. -/
theorem C8_filter_order_invariant_witness :
    (filter_campaign_locations tC8 csC8).rows =
      (filter_campaign_locations tC8 csC8r).rows ∧
    extractCoordinates (filter_campaign_locations tC8 csC8).rows =
      extractCoordinates (filter_campaign_locations tC8 csC8r).rows :=
  C8_filter_order_invariant tC8 csC8 csC8r (List.Perm.swap _ _ _)

/-- C9: a numeric criterion whose column is absent from the table is silently
skipped - the surviving rows, the applied-filters provenance and the warning
list are all unchanged - while an unknown categorical column is skipped with a
logged warning and no provenance entry. -/
theorem C9_numeric_skip_silent :
    ∀ (t : Table) (v w : ℚ) (col : String) (vals : List String),
      "affinity" ∉ t.cols →
      "popularity" ∉ t.cols →
      col ∉ t.cols →
      filter_campaign_locations t [.minAffinity v] = ⟨t.rows, [], []⟩ ∧
      filter_campaign_locations t [.minPopularity w] = ⟨t.rows, [], []⟩ ∧
      filter_campaign_locations t [.cat col vals] = ⟨t.rows, [], [col]⟩ := by
  intro t v w col vals h1 h2 h3
  refine ⟨?_, ?_, ?_⟩ <;>
    simp [filter_campaign_locations, applyCriterion, h1, h2, h3]

/-- The C9 witness table: it has a strategy column but no affinity,
popularity or segment column. -/
def tC9 : Table := ⟨["strategy"], [[("strategy", CellVal.str "Rally the Base")]]⟩

/-- Witness for C9 at a concrete table lacking the numeric columns. -/
theorem C9_numeric_skip_silent_witness :
    filter_campaign_locations tC9 [.minAffinity (3/5)] = ⟨tC9.rows, [], []⟩ ∧
    filter_campaign_locations tC9 [.minPopularity (1/2)] = ⟨tC9.rows, [], []⟩ ∧
    filter_campaign_locations tC9 [.cat "segment" ["HA-HP"]] =
      ⟨tC9.rows, [], ["segment"]⟩ :=
  C9_numeric_skip_silent tC9 (3/5) (1/2) "segment" ["HA-HP"] (by decide)
    (by decide) (by decide)

end ResonanceAI
